import Mathlib

/-!
Verification of the luggage-compliance policy engine
(`luggage.py` and `luggage_compliance.py`).

The Python code is shallowly embedded: Python floats become rationals
(`ℚ`), Python dicts become records or association lists, raised
exceptions become `Except.error`, and in-place mutation of `Luggage`
objects and of the caller's lists is made explicit by returning the
final contents of every list that the Python code builds or mutates.
Python's `list.sort` (a stable sort) is embedded as a stable insertion
sort, which computes the same list: a stable sort's output is uniquely
determined by the key order and the input order of equal-key elements.
-/

/- Batteries marks the rational-number arithmetic irreducible, which
blocks `decide`/`rfl` evaluation of the engine on concrete inputs.
Restoring the default reducibility only affects elaboration; kernel
checking is unchanged. -/
set_option allowUnsafeReducibility true in
attribute [semireducible] Rat.add Rat.mul Rat.sub

namespace LuggagePolicy

/-- Storage categories, from `luggage.py` line 21
(`valid_storage_types = ["carry-on", "checked", "special", "personal"]`). -/
inductive Storage where
  | carry_on
  | checked
  | special
  | personal
deriving DecidableEq, Repr, Inhabited

/-- Dimension units, from `luggage.py` line 54 (`["cm", "in", "mm"]`). -/
inductive DimUnit where
  | cm
  | inch
  | mm
deriving DecidableEq, Repr, Inhabited

/-- A luggage item, from the `Luggage` class of `luggage.py`.
The nested `dim` dict is flattened into the four fields
`height`, `width`, `depth`, `unit`. -/
structure Luggage where
  storage : Storage
  excess : Bool
  special : Bool
  compliance : Bool
  weight : ℚ
  height : ℚ
  width : ℚ
  depth : ℚ
  unit : DimUnit
deriving DecidableEq, Repr, Inhabited

/-- The fields of an item that the engine never mutates
(everything except `storage` and the three boolean flags). -/
def luggage_core (l : Luggage) : ℚ × ℚ × ℚ × ℚ × DimUnit :=
  (l.weight, l.height, l.width, l.depth, l.unit)

/-- Embedding of `Luggage._get_dimensions_in_cm` (`luggage.py` lines 83-96):
mm are divided by 10, inches multiplied by 2.54 (= 127/50). -/
def Luggage.get_dimensions_in_cm (l : Luggage) : ℚ × ℚ × ℚ :=
  match l.unit with
  | DimUnit.mm => (l.height / 10, l.width / 10, l.depth / 10)
  | DimUnit.inch => (l.height * (127 / 50), l.width * (127 / 50), l.depth * (127 / 50))
  | DimUnit.cm => (l.height, l.width, l.depth)

/-- Embedding of `Luggage.get_dimensions_list_cm` (`luggage.py` lines 103-106). -/
def Luggage.get_dimensions_list_cm (l : Luggage) : List ℚ :=
  [l.get_dimensions_in_cm.1, l.get_dimensions_in_cm.2.1, l.get_dimensions_in_cm.2.2]

/-- Embedding of `Luggage.get_total_size_cm` (`luggage.py` lines 98-101). -/
def Luggage.get_total_size_cm (l : Luggage) : ℚ :=
  l.get_dimensions_in_cm.1 + l.get_dimensions_in_cm.2.1 + l.get_dimensions_in_cm.2.2

/-- String form of a storage category, as stored in the Python object. -/
def storage_to_string : Storage → String
  | Storage.carry_on => "carry-on"
  | Storage.checked => "checked"
  | Storage.special => "special"
  | Storage.personal => "personal"

/-- Membership test of `luggage.py` line 22: a storage string is valid
iff it is one of the four recognized values. -/
def parse_storage (s : String) : Option Storage :=
  if s = "carry-on" then some Storage.carry_on
  else if s = "checked" then some Storage.checked
  else if s = "special" then some Storage.special
  else if s = "personal" then some Storage.personal
  else none

/-- String form of a unit. -/
def unit_to_string : DimUnit → String
  | DimUnit.cm => "cm"
  | DimUnit.inch => "in"
  | DimUnit.mm => "mm"

/-- Membership test of `luggage.py` line 54. -/
def parse_unit (s : String) : Option DimUnit :=
  if s = "cm" then some DimUnit.cm
  else if s = "in" then some DimUnit.inch
  else if s = "mm" then some DimUnit.mm
  else none

/-- The flat field set emitted by `Luggage.to_dict`
(`luggage.py` lines 108-120). -/
structure LuggageDict where
  storage : String
  excess : Bool
  special : Bool
  compliance : Bool
  weight : ℚ
  height : ℚ
  width : ℚ
  depth : ℚ
  unit : String
deriving DecidableEq, Repr

/-- Embedding of `Luggage.to_dict` (`luggage.py` lines 108-120). -/
def Luggage.to_dict (l : Luggage) : LuggageDict :=
  { storage := storage_to_string l.storage
    excess := l.excess
    special := l.special
    compliance := l.compliance
    weight := l.weight
    height := l.height
    width := l.width
    depth := l.depth
    unit := unit_to_string l.unit }

/-- The `Luggage.__init__` validation (`luggage.py` lines 20-57):
invalid storage, negative weight, a negative dimension or an invalid
unit raise `ValueError`. -/
def mk_luggage (storage : String) (excess spec compliance : Bool) (weight : ℚ)
    (height width depth : ℚ) (unit : String) : Except String Luggage :=
  match parse_storage storage with
  | none => Except.error ("Type de stockage invalide: " ++ storage)
  | some st =>
    if weight < 0 then Except.error "Le poids ne peut pas etre negatif"
    else if height < 0 then Except.error "La dimension height doit etre un nombre positif"
    else if width < 0 then Except.error "La dimension width doit etre un nombre positif"
    else if depth < 0 then Except.error "La dimension depth doit etre un nombre positif"
    else
      match parse_unit unit with
      | none => Except.error ("Unite invalide: " ++ unit)
      | some u =>
        Except.ok
          { storage := st, excess := excess, special := spec, compliance := compliance
            weight := weight, height := height, width := width, depth := depth, unit := u }

/-- Embedding of `Luggage.from_dict` (`luggage.py` lines 122-140): rebuilds an item
through the validating constructor. -/
def Luggage.from_dict (d : LuggageDict) : Except String Luggage :=
  mk_luggage d.storage d.excess d.special d.compliance d.weight d.height d.width d.depth d.unit

/-- Embedding of `Luggage.__eq__` (`luggage.py` lines 200-211): storage, flags and
the dimensions dict must match exactly; weights may differ by
less than 0.01. -/
def luggage_eq (a b : Luggage) : Bool :=
  a.storage == b.storage &&
  decide (|a.weight - b.weight| < 1 / 100) &&
  (a.height == b.height && a.width == b.width && a.depth == b.depth && a.unit == b.unit) &&
  a.excess == b.excess &&
  a.special == b.special &&
  a.compliance == b.compliance

/-! ### Stable sorting

`list.sort(key=...)` in Python is a stable sort.  A stable sort is a
function of the comparison and the input order only, so it is embedded
as a stable insertion sort. -/

/-- Insert `x` into `s`, placing it before the first element `y` with
`le x y`.  Ties (`le` in both directions) keep `x`, the element that
occurred earlier in the unsorted input, in front: stability. -/
def ins_le {α : Type} (le : α → α → Bool) (x : α) : List α → List α
  | [] => [x]
  | y :: ys => if le x y then x :: y :: ys else y :: ins_le le x ys

/-- Stable insertion sort. -/
def sort_le {α : Type} (le : α → α → Bool) : List α → List α
  | [] => []
  | x :: xs => ins_le le x (sort_le le xs)

/-- Ascending-weight comparison, the key of
`checked_items.sort(key=lambda x: x.weight)`. -/
def weight_le (a b : Luggage) : Bool := decide (a.weight ≤ b.weight)

/-- Descending-weight comparison, the key of
`compliant_items.sort(key=lambda x: x.weight, reverse=True)`. -/
def weight_ge (a b : Luggage) : Bool := decide (b.weight ≤ a.weight)

/-! ### The policy table (`LuggageCompliance.__init__`) -/

/-- One `carry_on` entry of `self.classes`. -/
structure CarryOnPolicy where
  quantity : Nat
  weight_limit : ℚ
  size_limit : List ℚ
deriving DecidableEq, Repr

/-- One `checked` entry of `self.classes` (also the shape of the
child/infant overrides). -/
structure CheckedPolicy where
  allowance : Nat
  weight_limit : ℚ
  size_limit : ℚ
deriving DecidableEq, Repr

/-- A per-class entry of `self.classes`. -/
structure ClassPolicy where
  carry_on : CarryOnPolicy
  checked : CheckedPolicy
deriving DecidableEq, Repr

/-- Embedding of `self.excess_fees` (`luggage_compliance.py` lines 39-43). -/
structure ExcessFees where
  overweight : ℚ
  oversize : ℚ
  extra_piece : ℚ
deriving DecidableEq, Repr

/-- The state of a `LuggageCompliance` object. -/
structure LuggageCompliance where
  classes : List (String × ClassPolicy)
  child_allowances : List (String × CheckedPolicy)
  excess_fees : ExcessFees
deriving DecidableEq, Repr

/-- Python dict lookup on a string-keyed association list; `none`
plays the role of a missing key. -/
def dict_lookup {β : Type} (key : String) : List (String × β) → Option β
  | [] => none
  | kv :: rest => if key = kv.1 then some kv.2 else dict_lookup key rest

/-- The `"Economy"` entry of `self.classes`. -/
def economy_policy : ClassPolicy :=
  { carry_on := { quantity := 1, weight_limit := 7, size_limit := [55, 40, 23] }
    checked := { allowance := 1, weight_limit := 23, size_limit := 158 } }

/-- The `"Business"` entry of `self.classes`. -/
def business_policy : ClassPolicy :=
  { carry_on := { quantity := 2, weight_limit := 12, size_limit := [55, 40, 23] }
    checked := { allowance := 2, weight_limit := 32, size_limit := 158 } }

/-- The `"First"` entry of `self.classes`. -/
def first_policy : ClassPolicy :=
  { carry_on := { quantity := 2, weight_limit := 12, size_limit := [55, 40, 23] }
    checked := { allowance := 3, weight_limit := 32, size_limit := 158 } }

/-- The `"child"` checked override of `self.child_allowances`. -/
def child_checked : CheckedPolicy :=
  { allowance := 1, weight_limit := 23, size_limit := 158 }

/-- The `"infant"` checked override of `self.child_allowances`. -/
def infant_checked : CheckedPolicy :=
  { allowance := 1, weight_limit := 10, size_limit := 158 }

/-- The object built by `LuggageCompliance.__init__`
(`luggage_compliance.py` lines 17-43). -/
def luggage_compliance : LuggageCompliance :=
  { classes :=
      [("Economy", economy_policy), ("Business", business_policy), ("First", first_policy)]
    child_allowances := [("child", child_checked), ("infant", infant_checked)]
    excess_fees := { overweight := 75, oversize := 100, extra_piece := 150 } }

/-! ### Carry-on evaluator (`validate_carry_on`, lines 45-101) -/

/-- The per-item classification loop of `validate_carry_on`
(lines 57-79): an item is compliant iff every cm dimension is within
the per-dimension limit and the weight is within the weight limit.
Returns `(compliant_items, checked_candidates)`, each in input order,
holding the items with their `compliance` flag as mutated in place. -/
def classify_items (pol : CarryOnPolicy) : List Luggage → List Luggage × List Luggage
  | [] => ([], [])
  | item :: rest =>
    let r := classify_items pol rest
    let size_ok :=
      (item.get_dimensions_list_cm.zip pol.size_limit).all fun p => decide (p.1 ≤ p.2)
    let weight_ok := decide (item.weight ≤ pol.weight_limit)
    if size_ok && weight_ok then ({ item with compliance := true } :: r.1, r.2)
    else (r.1, { item with compliance := false } :: r.2)

/-- Result of `validate_carry_on`.  The Python method returns
`(True, message, checked_candidates)`; `compliant_items` materializes
the final state of the items it mutated in place but did not return. -/
structure CarryOnOutcome where
  ok : Bool
  message : String
  checked_candidates : List Luggage
  compliant_items : List Luggage
deriving DecidableEq, Repr, Inhabited

/-- The body of `validate_carry_on` after the class lookup
(lines 51-101).  When more than `quantity + 1` items are compliant,
the compliant items are stably sorted by descending weight and the
overflow past the first `quantity + 1` is marked
`excess=True, compliance=False` and appended to the checked
candidates (lines 81-95). -/
def carry_eval (cls : ClassPolicy) (carry_on_items personal_items : List Luggage) :
    CarryOnOutcome :=
  let class_policy := cls.carry_on
  let cl := classify_items class_policy (carry_on_items ++ personal_items)
  let max_items := class_policy.quantity + 1
  let r :=
    if max_items < cl.1.length then
      let sorted_desc := sort_le weight_ge cl.1
      let overflow :=
        (sorted_desc.drop max_items).map fun i => { i with excess := true, compliance := false }
      (sorted_desc.take max_items, cl.2 ++ overflow)
    else (cl.1, cl.2)
  let message :=
    if 0 < r.2.length then
      "Mais " ++ toString r.2.length ++ " bagage(s) doi(ven)t etre deplace(s) en soute"
    else "Bagages cabine conformes."
  { ok := true, message := message, checked_candidates := r.2, compliant_items := r.1 }

/-- Embedding of `LuggageCompliance.validate_carry_on` (lines 45-101).  Unknown
travel classes raise `ValueError` (lines 48-49) before any item is
read or mutated. -/
def validate_carry_on (self : LuggageCompliance) (travel_class : String)
    (carry_on_items personal_items : List Luggage) : Except String CarryOnOutcome :=
  match dict_lookup travel_class self.classes with
  | none => Except.error ("Classe de voyage invalide: " ++ travel_class)
  | some cls => Except.ok (carry_eval cls carry_on_items personal_items)

/-! ### Checked-baggage evaluator (`validate_checked_baggage`, lines 103-204) -/

/-- The child/infant overlay (lines 116-121), applied to a copy of the
class checked policy: allowance is increased, the weight limit raised
to the max of the two.  `none` (key absent, e.g. `"adult"`) leaves the
policy unchanged. -/
def overlay_checked (base : CheckedPolicy) : Option CheckedPolicy → CheckedPolicy
  | some cp =>
    { base with
      allowance := base.allowance + cp.allowance
      weight_limit := max base.weight_limit cp.weight_limit }
  | none => base

/-- The cabin-reclaim admission test (lines 133-136, the part after
`carry_on_capacity > 0`): every cm dimension within the class carry-on
per-dimension limits and weight within the carry-on weight limit. -/
def reclaim_fits (co : CarryOnPolicy) (item : Luggage) : Bool :=
  ((item.get_dimensions_list_cm.zip co.size_limit).all fun p => decide (p.1 ≤ p.2)) &&
  decide (item.weight ≤ co.weight_limit)

/-- The cabin-reclaim pass (lines 127-149) over the weight-sorted list.
Each element is tagged `true` if it was reclassified to carry-on
(`storage="carry-on"`, `compliance=True`, `excess=False`, capacity
decremented) and `false` if it stays in the retained checked set.
Returns the tagged list in processing order and the remaining
capacity. -/
def reclaim_pass (co : CarryOnPolicy) : List Luggage → Int → List (Luggage × Bool) × Int
  | [], cap => ([], cap)
  | item :: rest, cap =>
    if 0 < cap ∧ reclaim_fits co item = true then
      let item2 := { item with storage := Storage.carry_on, compliance := true, excess := false }
      let r := reclaim_pass co rest (cap - 1)
      ((item2, true) :: r.1, r.2)
    else
      let r := reclaim_pass co rest cap
      ((item, false) :: r.1, r.2)

/-- Per-item outcome of the fee loop (lines 152-181): the item with its
flags as mutated, whether it was routed to cargo, the fee added for it,
and the message parts it contributed. -/
structure ItemFee where
  item : Luggage
  cargo : Bool
  fee : ℚ
  parts : List String
deriving DecidableEq, Repr

/-- One iteration of the fee loop (lines 152-181).  Weight > 32 kg or
total size > 203 cm routes the item to cargo (`special=True`,
`compliance=False`) with no fee and skips the fee checks (`continue`).
Otherwise the overweight fee and, independently, the oversize fee
apply against the overlaid policy, each marking `excess=True`.
Numeric formatting inside the message strings is simplified relative
to Python's float formatting; no message text feeds back into the
logic. -/
def fee_for_item (self : LuggageCompliance) (pol : CheckedPolicy) (item : Luggage) : ItemFee :=
  let weight := item.weight
  let total_size_cm := item.get_total_size_cm
  if 32 < weight ∨ 203 < total_size_cm then
    { item := { item with special := true, compliance := false }
      cargo := true, fee := 0, parts := [] }
  else
    let step1 :=
      if pol.weight_limit < weight then
        ({ item with excess := true }, self.excess_fees.overweight,
          ["Surpoids (" ++ toString weight ++ "kg > " ++ toString pol.weight_limit ++ "kg)"])
      else (item, (0 : ℚ), ([] : List String))
    let step2 :=
      if pol.size_limit < total_size_cm ∧ total_size_cm ≤ 203 then
        ({ step1.1 with excess := true }, self.excess_fees.oversize,
          ["Surtaille (" ++ toString total_size_cm ++ "cm > " ++ toString pol.size_limit ++ "cm)"])
      else (step1.1, (0 : ℚ), ([] : List String))
    { item := step2.1, cargo := false, fee := step1.2.1 + step2.2.1
      parts := step1.2.2 ++ step2.2.2 }

/-- The excess-piece marking (lines 189-191):
`retained_checked_items[-n:]` are marked `excess=True`. -/
def mark_last_excess (n : Nat) (l : List ItemFee) : List ItemFee :=
  l.take (l.length - n) ++
    (l.drop (l.length - n)).map fun r => { r with item := { r.item with excess := true } }

/-- Rebuild the contents of the caller's (sorted, mutated-in-place)
`checked_items` list: reclaimed positions keep the reclaimed item
state, retained positions take the successive final retained states. -/
def reassemble : List (Luggage × Bool) → List Luggage → List Luggage
  | [], _ => []
  | (l, true) :: rest, rets => l :: reassemble rest rets
  | (_, false) :: rest, r :: rets => r :: reassemble rest rets
  | (l, false) :: rest, [] => l :: reassemble rest []

/-- Result of `validate_checked_baggage`.  The Python method returns
`(ok, message, cargo_items, fees)`; the other fields materialize the
in-place effects and the loop state: `carryon_candidates` (items
reclassified to the cabin), `retained_final` (final states of
`retained_checked_items`, which keeps holding cargo-routed items),
`final_list` (contents of the caller's list object after the call),
`remaining_capacity` (the local `carry_on_capacity` after the reclaim
pass), `item_fee_total` (fees accumulated by the per-item loop) and
`piece_excess_count` (the local `excess_items`). -/
structure CheckedOutcome where
  ok : Bool
  message : String
  cargo_items : List Luggage
  fees : ℚ
  carryon_candidates : List Luggage
  retained_final : List Luggage
  final_list : List Luggage
  remaining_capacity : Int
  item_fee_total : ℚ
  piece_excess_count : Nat
deriving DecidableEq, Repr, Inhabited

/-- The body of `validate_checked_baggage` after the class lookup
(lines 110-204): overlay the checked policy, sort the list in place by
ascending weight, run the reclaim pass, the per-item fee loop, the
piece-count fee and excess marking, and package the verdict.  The
Python early return for a non-empty cargo list (lines 200-202) only
changes the success flag and the message, so it is folded into the
single record. -/
def checked_eval (self : LuggageCompliance) (cls : ClassPolicy)
    (checked_items : List Luggage) (passenger_type : String) (carry_on_capacity : Int) :
    CheckedOutcome :=
  let child := dict_lookup passenger_type self.child_allowances
  let class_policy := overlay_checked cls.checked child
  let overlay_parts : List String :=
    match child with
    | some cp => ["Allowance enfant appliquee (+" ++ toString cp.allowance ++ " bagage)"]
    | none => []
  let sorted_items := sort_le weight_le checked_items
  let rp := reclaim_pass cls.carry_on sorted_items carry_on_capacity
  let carryon_candidates := (rp.1.filter fun p => p.2).map fun p => p.1
  let retained0 := (rp.1.filter fun p => !p.2).map fun p => p.1
  let processed := retained0.map (fee_for_item self class_policy)
  let item_fee_total := (processed.map fun r => r.fee).sum
  let item_parts := (processed.map fun r => r.parts).flatten
  let excess_count := retained0.length - class_policy.allowance
  let piece_parts :=
    if 0 < excess_count then [toString excess_count ++ " bagage(s) supplementaire(s)"]
    else ([] : List String)
  let fees :=
    item_fee_total +
      (if 0 < excess_count then self.excess_fees.extra_piece * (excess_count : ℚ) else 0)
  let processed2 := if 0 < excess_count then mark_last_excess excess_count processed
    else processed
  let retained_final := processed2.map fun r => r.item
  let cargo_items := (processed2.filter fun r => r.cargo).map fun r => r.item
  let final_list := reassemble rp.1 retained_final
  let message_parts := overlay_parts ++ item_parts ++ piece_parts
  let message :=
    if message_parts.isEmpty then "Bagages enregistres conformes."
    else "Frais applicables: " ++ String.intercalate "; " message_parts
  { ok := if 0 < cargo_items.length then false else true
    message :=
      if 0 < cargo_items.length then
        "ECHEC: " ++ toString cargo_items.length ++
          " article(s) doivent etre expedies comme fret. " ++ message
      else message
    cargo_items := cargo_items, fees := fees
    carryon_candidates := carryon_candidates, retained_final := retained_final
    final_list := final_list, remaining_capacity := rp.2
    item_fee_total := item_fee_total, piece_excess_count := excess_count }

/-- Embedding of `LuggageCompliance.validate_checked_baggage` (lines 103-204).
Unknown travel classes raise `ValueError` (lines 107-108) before any
item is read or mutated.  The returned `LuggageCompliance` is the
state of `self` after the call: line 110 copies the class policy
before the overlay mutates it, so the method never writes to
`self`. -/
def validate_checked_baggage (self : LuggageCompliance) (travel_class : String)
    (checked_items : List Luggage) (passenger_type : String) (carry_on_capacity : Int) :
    Except String (CheckedOutcome × LuggageCompliance) :=
  match dict_lookup travel_class self.classes with
  | none => Except.error ("Classe de voyage invalide: " ++ travel_class)
  | some cls =>
    Except.ok (checked_eval self cls checked_items passenger_type carry_on_capacity, self)

/-! ### Orchestrator (`test_eligibility`, lines 206-256) -/

/-- Embedding of `LuggageComplianceRequest` (lines 297-303), without the
construction-time validation (modelled separately by `mk_request`). -/
structure LuggageComplianceRequest where
  travel_class : String
  age_category : String
  luggages : List Luggage
deriving DecidableEq, Repr

/-- The `LuggageComplianceRequest.__init__` validation
(lines 305-312). -/
def mk_request (travel_class age_category : String) (luggages : List Luggage) :
    Except String LuggageComplianceRequest :=
  if travel_class = "Economy" ∨ travel_class = "Business" ∨ travel_class = "First" then
    if age_category = "adult" ∨ age_category = "child" ∨ age_category = "infant" then
      Except.ok
        { travel_class := travel_class, age_category := age_category, luggages := luggages }
    else Except.error ("Age invalide: " ++ age_category)
  else Except.error ("Classe invalide: " ++ travel_class)

/-- Everything `test_eligibility` computes before the final packaging,
including the internal stage outcomes (exposed for the theorems). -/
structure EligibilityOutcome where
  result : Bool
  message : String
  moved_to_checked : List Luggage
  cargo_items : List Luggage
  fees : ℚ
  carry_outcome : CarryOnOutcome
  checked_outcome : CheckedOutcome
deriving DecidableEq, Repr, Inhabited

/-- The body of the `try` block of `test_eligibility` (lines 208-251):
bucket the items by storage, run the carry-on evaluator, reclassify its
candidates to `"checked"`, recompute the remaining cabin capacity, run
the checked evaluator, and merge messages and verdicts.  Every raised
exception surfaces as an `Except.error`.  The `moved_to_checked` list
holds the candidates at reclassification time; the checked stage may
further mutate those same objects, which the embedding materializes in
`checked_outcome` rather than here. -/
def test_eligibility_core (self : LuggageCompliance)
    (request : LuggageComplianceRequest) : Except String EligibilityOutcome :=
  let carry_on_items := request.luggages.filter fun x => x.storage == Storage.carry_on
  let personal_items := request.luggages.filter fun x => x.storage == Storage.personal
  let checked_items := request.luggages.filter fun x => x.storage == Storage.checked
  match validate_carry_on self request.travel_class carry_on_items personal_items with
  | Except.error e => Except.error e
  | Except.ok co =>
    let carry_on_to_check := co.checked_candidates.map fun item =>
      { item with storage := Storage.checked }
    let all_checked_items := checked_items ++ carry_on_to_check
    match dict_lookup request.travel_class self.classes with
    | none => Except.error ("KeyError: " ++ request.travel_class)
    | some class_policy =>
      let carry_on_capacity : Int :=
        max 0 ((class_policy.carry_on.quantity : Int) + 1 -
          ((carry_on_items.length : Int) + (personal_items.length : Int) -
            (carry_on_to_check.length : Int)))
      match validate_checked_baggage self request.travel_class all_checked_items
          request.age_category carry_on_capacity with
      | Except.error e => Except.error e
      | Except.ok r =>
        let checked_out := r.1
        let messages :=
          (if co.message ≠ "Bagages cabine conformes." then [co.message] else []) ++
          (if checked_out.message ≠ "Bagages enregistres conformes." then [checked_out.message]
            else [])
        let full_message :=
          if messages.isEmpty then "Tous les bagages sont conformes."
          else String.intercalate " | " messages
        let final_result := checked_out.ok && (checked_out.cargo_items.length == 0)
        Except.ok
          { result := final_result, message := full_message
            moved_to_checked := carry_on_to_check, cargo_items := checked_out.cargo_items
            fees := checked_out.fees, carry_outcome := co, checked_outcome := checked_out }

/-- Embedding of `LuggageCompliance.test_eligibility` (lines 206-256): the `except`
clause converts any exception into
`(False, "Erreur lors de la validation: " + str(e), [], [], 0.0)`. -/
def test_eligibility (self : LuggageCompliance) (request : LuggageComplianceRequest) :
    Bool × String × List Luggage × List Luggage × ℚ :=
  match test_eligibility_core self request with
  | Except.ok out => (out.result, out.message, out.moved_to_checked, out.cargo_items, out.fees)
  | Except.error e => (false, "Erreur lors de la validation: " ++ e, [], [], 0)

/-! ### Concrete items used by witnesses and counterexamples -/

/-- Convenience constructor for concrete test items (cm dimensions,
all flags clear). -/
def mk_bag (st : Storage) (w h wd d : ℚ) : Luggage :=
  { storage := st, excess := false, special := false, compliance := false
    weight := w, height := h, width := wd, depth := d, unit := DimUnit.cm }

/-- The C1 scenario item: a 35 kg checked bag (60+40+20 = 120 cm). -/
def c1_item : Luggage := mk_bag Storage.checked 35 60 40 20

/-- The C1 scenario request: Business class, adult, the single 35 kg
checked bag. -/
def c1_request : LuggageComplianceRequest :=
  { travel_class := "Business", age_category := "adult", luggages := [c1_item] }

/-- The three compliant Economy bags used by the C3 witness. -/
def c3_bags : List Luggage :=
  [mk_bag Storage.carry_on 1 50 40 20, mk_bag Storage.carry_on 2 50 40 20,
    mk_bag Storage.carry_on 3 50 40 20]

/-- The three Business bags of the C2 counterexample: two compliant
bags and one 35 kg cargo-bound bag. -/
def c2_items : List Luggage :=
  [mk_bag Storage.checked 10 50 40 20, mk_bag Storage.checked 20 50 40 20,
    mk_bag Storage.checked 35 50 40 20]

/-- The C5 witness request: Economy, adult, no luggage at all. -/
def c5_base_request : LuggageComplianceRequest :=
  { travel_class := "Economy", age_category := "adult", luggages := [] }

/-- The outcome of the C5 witness base request. -/
def c5_base_out : EligibilityOutcome :=
  match test_eligibility_core luggage_compliance c5_base_request with
  | Except.ok o => o
  | Except.error _ => default

/-- The 25 kg checked item added in the C5 witness and
counterexample: overweight for Economy (limit 23), non-cargo,
within the 158 cm size limit. -/
def c5_extra_item : Luggage := mk_bag Storage.checked 25 50 40 20

/-- The C5 counterexample base request: one compliant 20 kg Economy
checked bag (fee 0, verdict true) already using the full piece
allowance. -/
def c5_cx_base : LuggageComplianceRequest :=
  { travel_class := "Economy", age_category := "adult"
    luggages := [mk_bag Storage.checked 20 50 40 20] }

/-! ### Helper lemmas about the stable sort -/

theorem ins_le_perm {α : Type} (le : α → α → Bool) (x : α) (s : List α) :
    (ins_le le x s).Perm (x :: s) := by
  induction s with
  | nil => simp [ins_le]
  | cons y ys ih =>
    unfold ins_le
    split
    · exact List.Perm.refl _
    · exact (ih.cons y).trans (List.Perm.swap x y ys)

theorem sort_le_perm {α : Type} (le : α → α → Bool) (l : List α) :
    (sort_le le l).Perm l := by
  induction l with
  | nil => exact List.Perm.refl _
  | cons x xs ih => exact (ins_le_perm le x (sort_le le xs)).trans (ih.cons x)

theorem ins_le_pairwise {α : Type} (le : α → α → Bool)
    (htot : ∀ a b, le a b = true ∨ le b a = true)
    (htrans : ∀ a b c, le a b = true → le b c = true → le a c = true)
    (x : α) (s : List α) (hs : s.Pairwise fun a b => le a b = true) :
    (ins_le le x s).Pairwise fun a b => le a b = true := by
  induction s with
  | nil => simp [ins_le]
  | cons y ys ih =>
    rw [List.pairwise_cons] at hs
    unfold ins_le
    split
    · rename_i hxy
      refine List.pairwise_cons.mpr ⟨?_, List.pairwise_cons.mpr ⟨hs.1, hs.2⟩⟩
      intro b hb
      rcases List.mem_cons.mp hb with h | h
      · exact h ▸ hxy
      · exact htrans x y b hxy (hs.1 b h)
    · rename_i hxy
      have hyx : le y x = true := by
        rcases htot x y with h | h
        · exact absurd h hxy
        · exact h
      refine List.pairwise_cons.mpr ⟨?_, ih hs.2⟩
      intro b hb
      rcases List.mem_cons.mp ((ins_le_perm le x ys).mem_iff.mp hb) with h | h
      · exact h ▸ hyx
      · exact hs.1 b h

theorem sort_le_pairwise {α : Type} (le : α → α → Bool)
    (htot : ∀ a b, le a b = true ∨ le b a = true)
    (htrans : ∀ a b c, le a b = true → le b c = true → le a c = true)
    (l : List α) : (sort_le le l).Pairwise fun a b => le a b = true := by
  induction l with
  | nil => simp [sort_le]
  | cons x xs ih => exact ins_le_pairwise le htot htrans x (sort_le le xs) ih

theorem ins_le_decomp {α : Type} (le : α → α → Bool) (x : α) (s : List α) :
    ∃ u v, ins_le le x s = u ++ x :: v ∧ s = u ++ v := by
  induction s with
  | nil => exact ⟨[], [], rfl, rfl⟩
  | cons y ys ih =>
    unfold ins_le
    split
    · exact ⟨[], y :: ys, rfl, rfl⟩
    · obtain ⟨u, v, h1, h2⟩ := ih
      exact ⟨y :: u, v, by simp [h1], by simp [h2]⟩

theorem weight_le_total (a b : Luggage) : weight_le a b = true ∨ weight_le b a = true := by
  simp only [weight_le, decide_eq_true_eq]
  exact le_total a.weight b.weight

theorem weight_le_trans (a b c : Luggage) :
    weight_le a b = true → weight_le b c = true → weight_le a c = true := by
  simp only [weight_le, decide_eq_true_eq]
  exact le_trans

theorem weight_ge_total (a b : Luggage) : weight_ge a b = true ∨ weight_ge b a = true := by
  simp only [weight_ge, decide_eq_true_eq]
  exact (le_total b.weight a.weight)

theorem weight_ge_trans (a b c : Luggage) :
    weight_ge a b = true → weight_ge b c = true → weight_ge a c = true := by
  simp only [weight_ge, decide_eq_true_eq]
  intro h1 h2
  exact le_trans h2 h1

/-! ### Helper lemmas about the reclaim pass -/

theorem reclaim_pass_cons (co : CarryOnPolicy) (x : Luggage) (rest : List Luggage) (cap : Int) :
    reclaim_pass co (x :: rest) cap =
      if 0 < cap ∧ reclaim_fits co x = true then
        (({ x with storage := Storage.carry_on, compliance := true, excess := false }, true)
            :: (reclaim_pass co rest (cap - 1)).1,
          (reclaim_pass co rest (cap - 1)).2)
      else ((x, false) :: (reclaim_pass co rest cap).1, (reclaim_pass co rest cap).2) := rfl

theorem reclaim_pass_append (co : CarryOnPolicy) (a b : List Luggage) (cap : Int) :
    reclaim_pass co (a ++ b) cap =
      ((reclaim_pass co a cap).1 ++ (reclaim_pass co b (reclaim_pass co a cap).2).1,
        (reclaim_pass co b (reclaim_pass co a cap).2).2) := by
  induction a generalizing cap with
  | nil => simp [reclaim_pass]
  | cons x xs ih =>
    rw [List.cons_append, reclaim_pass_cons, reclaim_pass_cons]
    by_cases hc : 0 < cap ∧ reclaim_fits co x = true
    · simp only [if_pos hc, ih, List.cons_append]
    · simp only [if_neg hc, ih, List.cons_append]

theorem reclaim_pass_cores (co : CarryOnPolicy) (l : List Luggage) (cap : Int) :
    (reclaim_pass co l cap).1.map (fun p => luggage_core p.1) = l.map luggage_core := by
  induction l generalizing cap with
  | nil => rfl
  | cons x xs ih =>
    rw [reclaim_pass_cons]
    by_cases hc : 0 < cap ∧ reclaim_fits co x = true
    · rw [if_pos hc]
      simp only [List.map_cons, ih]
      rfl
    · rw [if_neg hc]
      simp only [List.map_cons, ih]

theorem reclaim_pass_spec (co : CarryOnPolicy) (l : List Luggage) (cap : Int) :
    ((reclaim_pass co l cap).1.filter (fun p => p.2)).length
      = min cap.toNat (l.countP (reclaim_fits co)) ∧
    (reclaim_pass co l cap).2
      = cap - (((reclaim_pass co l cap).1.filter (fun p => p.2)).length : Int) ∧
    ∀ p ∈ (reclaim_pass co l cap).1, p.2 = true →
      p.1.storage = Storage.carry_on ∧ p.1.compliance = true ∧ p.1.excess = false := by
  induction l generalizing cap with
  | nil => simp [reclaim_pass]
  | cons x xs ih =>
    rw [reclaim_pass_cons]
    by_cases hc : 0 < cap ∧ reclaim_fits co x = true
    · rw [if_pos hc]
      obtain ⟨ih1, ih2, ih3⟩ := ih (cap - 1)
      have hcap : 0 < cap := hc.1
      refine ⟨?_, ?_, ?_⟩
      · rw [List.filter_cons_of_pos rfl, List.countP_cons_of_pos _ _ hc.2,
          List.length_cons, ih1]
        omega
      · rw [List.filter_cons_of_pos rfl, List.length_cons, ih2]
        push_cast
        omega
      · intro p hp htag
        rcases List.mem_cons.mp hp with h | h
        · subst h
          exact ⟨rfl, rfl, rfl⟩
        · exact ih3 p h htag
    · rw [if_neg hc]
      obtain ⟨ih1, ih2, ih3⟩ := ih cap
      refine ⟨?_, ?_, ?_⟩
      · rw [List.filter_cons_of_neg (by simp), ih1]
        by_cases hf : reclaim_fits co x = true
        · have hcap : ¬ 0 < cap := fun h => hc ⟨h, hf⟩
          rw [List.countP_cons_of_pos _ _ hf]
          omega
        · rw [List.countP_cons_of_neg _ _ hf]
      · rw [List.filter_cons_of_neg (by simp)]
        exact ih2
      · intro p hp htag
        rcases List.mem_cons.mp hp with h | h
        · subst h
          simp at htag
        · exact ih3 p h htag

/-! ### Claim theorems -/

/-- C10: for every travel-class string outside Economy/Business/First,
both `validate_carry_on` and `validate_checked_baggage` raise
`ValueError` immediately; the result is the same for every item list,
so no item is inspected or mutated first. -/
theorem invalid_class_rejected_before_items (tc : String)
    (h1 : tc ≠ "Economy") (h2 : tc ≠ "Business") (h3 : tc ≠ "First")
    (cos pers items : List Luggage) (pt : String) (cap : Int) :
    validate_carry_on luggage_compliance tc cos pers
        = Except.error ("Classe de voyage invalide: " ++ tc) ∧
    validate_checked_baggage luggage_compliance tc items pt cap
        = Except.error ("Classe de voyage invalide: " ++ tc) := by
  have hnone : dict_lookup tc luggage_compliance.classes = none := by
    simp [dict_lookup, luggage_compliance, h1, h2, h3]
  constructor
  · simp [validate_carry_on, hnone]
  · simp [validate_checked_baggage, hnone]

/-- Witness for C10 at the concrete class string `"Premium"`. -/
theorem invalid_class_rejected_before_items_witness :
    ("Premium" : String) ≠ "Economy" ∧
    validate_carry_on luggage_compliance "Premium" [] []
        = Except.error ("Classe de voyage invalide: " ++ "Premium") ∧
    validate_checked_baggage luggage_compliance "Premium" [] "adult" 0
        = Except.error ("Classe de voyage invalide: " ++ "Premium") :=
  ⟨by decide,
    (invalid_class_rejected_before_items "Premium" (by decide) (by decide) (by decide)
      [] [] [] "adult" 0).1,
    (invalid_class_rejected_before_items "Premium" (by decide) (by decide) (by decide)
      [] [] [] "adult" 0).2⟩

/-- C4: whenever the evaluation pipeline of `test_eligibility` raises,
the orchestrator boundary converts it into
`(False, "Erreur lors de la validation: " + str(e), [], [], 0.0)`;
`test_eligibility` itself is total, so no exception escapes. -/
theorem orchestrator_converts_errors (self : LuggageCompliance)
    (req : LuggageComplianceRequest) (e : String)
    (h : test_eligibility_core self req = Except.error e) :
    test_eligibility self req
      = (false, "Erreur lors de la validation: " ++ e, [], [], 0) := by
  simp [test_eligibility, h]

/-- Witness for C4: an invalid travel class makes the pipeline raise,
and the orchestrator returns the failed result. -/
theorem orchestrator_converts_errors_witness :
    test_eligibility_core luggage_compliance
        { travel_class := "Premium", age_category := "adult", luggages := [] }
      = Except.error ("Classe de voyage invalide: " ++ "Premium") ∧
    test_eligibility luggage_compliance
        { travel_class := "Premium", age_category := "adult", luggages := [] }
      = (false, "Erreur lors de la validation: " ++ ("Classe de voyage invalide: " ++ "Premium"),
          [], [], 0) :=
  ⟨rfl, orchestrator_converts_errors _ _ _ rfl⟩

/-- C7: the child/infant overlay adds the age-category allowance to
the piece allowance and raises the weight limit to the max of the two,
on a copy of the class policy; the policy table on the object
(`self`) is unchanged by any evaluation. -/
theorem age_overlay_on_copy :
    (∀ base cp : CheckedPolicy,
        overlay_checked base (some cp) =
          { allowance := base.allowance + cp.allowance
            weight_limit := max base.weight_limit cp.weight_limit
            size_limit := base.size_limit }) ∧
    dict_lookup "child" luggage_compliance.child_allowances = some child_checked ∧
    dict_lookup "infant" luggage_compliance.child_allowances = some infant_checked ∧
    (∀ (self : LuggageCompliance) (tc : String) (items : List Luggage) (pt : String)
        (cap : Int) (out : CheckedOutcome) (s2 : LuggageCompliance),
      validate_checked_baggage self tc items pt cap = Except.ok (out, s2) → s2 = self) := by
  refine ⟨fun base cp => rfl, rfl, rfl, ?_⟩
  intro self tc items pt cap out s2 h
  cases hl : dict_lookup tc self.classes with
  | none => simp [validate_checked_baggage, hl] at h
  | some cls =>
    simp only [validate_checked_baggage, hl, Except.ok.injEq, Prod.mk.injEq] at h
    exact h.2.symm

/-- Witness for C7: a concrete child evaluation leaves `self`
unchanged. -/
theorem age_overlay_on_copy_witness :
    validate_checked_baggage luggage_compliance "Economy" [] "child" 0
        = Except.ok (checked_eval luggage_compliance economy_policy [] "child" 0,
            luggage_compliance) ∧
    luggage_compliance = luggage_compliance :=
  ⟨rfl, age_overlay_on_copy.2.2.2 luggage_compliance "Economy" [] "child" 0 _ _ rfl⟩

/-- C8: `Luggage.__eq__` holds iff storage category, flags and the
dimensions dict match and the weights differ by less than 0.01; for
every valid item (non-negative weight and dimensions) the
`to_dict`/`from_dict` round trip rebuilds the item exactly, hence an
equal one. -/
theorem luggage_equality_and_roundtrip :
    (∀ a b : Luggage,
        luggage_eq a b = true ↔
          (a.storage = b.storage ∧ |a.weight - b.weight| < 1 / 100 ∧
            a.height = b.height ∧ a.width = b.width ∧ a.depth = b.depth ∧
            a.unit = b.unit ∧ a.excess = b.excess ∧ a.special = b.special ∧
            a.compliance = b.compliance)) ∧
    (∀ l : Luggage, 0 ≤ l.weight → 0 ≤ l.height → 0 ≤ l.width → 0 ≤ l.depth →
        Luggage.from_dict (Luggage.to_dict l) = Except.ok l ∧ luggage_eq l l = true) := by
  constructor
  · intro a b
    simp [luggage_eq, and_assoc]
  · intro l hw hh hwi hd
    have hps : parse_storage (storage_to_string l.storage) = some l.storage := by
      cases l.storage <;> rfl
    have hpu : parse_unit (unit_to_string l.unit) = some l.unit := by
      cases l.unit <;> rfl
    constructor
    · simp only [Luggage.from_dict, Luggage.to_dict, mk_luggage, hps, hpu,
        not_lt.mpr hw, not_lt.mpr hh, not_lt.mpr hwi, not_lt.mpr hd, if_false]
    · simp [luggage_eq]

/-- Witness for C8 at a concrete valid item. -/
theorem luggage_equality_and_roundtrip_witness :
    (0 : ℚ) ≤ (mk_bag Storage.carry_on 7 55 40 23).weight ∧
    Luggage.from_dict (Luggage.to_dict (mk_bag Storage.carry_on 7 55 40 23))
        = Except.ok (mk_bag Storage.carry_on 7 55 40 23) ∧
    luggage_eq (mk_bag Storage.carry_on 7 55 40 23) (mk_bag Storage.carry_on 7 55 40 23)
        = true :=
  ⟨by decide,
    (luggage_equality_and_roundtrip.2 _ (by decide) (by decide) (by decide) (by decide)).1,
    (luggage_equality_and_roundtrip.2 _ (by decide) (by decide) (by decide) (by decide)).2⟩

/-- C1: any retained checked item over the cargo threshold
(weight > 32 kg or total size > 203 cm) is marked
`special=True, compliance=False`, tagged for the cargo list, and
charged no overweight or oversize fee; in the Business/adult scenario
with a single 35 kg checked bag, the cargo list holds exactly that
bag, the fee is 0 and the verdict is `False`. -/
theorem cargo_threshold_routes_to_cargo_without_fee :
    (∀ (pol : CheckedPolicy) (x : Luggage),
        32 < x.weight ∨ 203 < x.get_total_size_cm →
          fee_for_item luggage_compliance pol x =
            { item := { x with special := true, compliance := false }
              cargo := true, fee := 0, parts := [] }) ∧
    (test_eligibility luggage_compliance c1_request).1 = false ∧
    (test_eligibility luggage_compliance c1_request).2.2.1 = [] ∧
    (test_eligibility luggage_compliance c1_request).2.2.2.1
      = [{ c1_item with special := true, compliance := false }] ∧
    (test_eligibility luggage_compliance c1_request).2.2.2.2 = 0 := by
  refine ⟨?_, by decide, by decide, by decide, by decide⟩
  intro pol x h
  simp only [fee_for_item]
  rw [if_pos h]

/-- Witness for C1 at the concrete 35 kg item. -/
theorem cargo_threshold_witness :
    (32 < c1_item.weight ∨ 203 < c1_item.get_total_size_cm) ∧
    fee_for_item luggage_compliance business_policy.checked c1_item =
      { item := { c1_item with special := true, compliance := false }
        cargo := true, fee := 0, parts := [] } :=
  ⟨Or.inl (by decide),
    cargo_threshold_routes_to_cargo_without_fee.1 business_policy.checked c1_item
      (Or.inl (by decide))⟩

/-! ### Further helper lemmas -/

theorem classify_items_compliant (pol : CarryOnPolicy) (l : List Luggage) :
    ∀ x ∈ (classify_items pol l).1, x.compliance = true := by
  induction l with
  | nil => simp [classify_items]
  | cons i rest ih =>
    simp only [classify_items]
    split
    · intro x hx
      rcases List.mem_cons.mp hx with h | h
      · subst h
        rfl
      · exact ih x h
    · exact ih

theorem fee_for_item_core (self : LuggageCompliance) (pol : CheckedPolicy) (i : Luggage) :
    luggage_core (fee_for_item self pol i).item = luggage_core i := by
  simp only [fee_for_item]
  split
  · rfl
  · split <;> split <;> rfl

theorem mark_last_excess_cores (n : Nat) (l : List ItemFee) :
    (mark_last_excess n l).map (fun r => luggage_core r.item)
      = l.map fun r => luggage_core r.item := by
  unfold mark_last_excess
  rw [List.map_append, List.map_map]
  have hcomp :
      ((fun r => luggage_core r.item) ∘
        fun r : ItemFee => { r with item := { r.item with excess := true } })
        = fun r : ItemFee => luggage_core r.item := rfl
  rw [hcomp, ← List.map_append, List.take_append_drop]

theorem mark_last_excess_length (n : Nat) (l : List ItemFee) :
    (mark_last_excess n l).length = l.length := by
  unfold mark_last_excess
  rw [List.length_append, List.length_map, List.length_take, List.length_drop]
  omega

theorem reassemble_map_core (tagged : List (Luggage × Bool)) (rets : List Luggage)
    (hc : rets.map luggage_core
      = ((tagged.filter fun p => !p.2).map fun p => p.1).map luggage_core) :
    (reassemble tagged rets).map luggage_core = tagged.map fun p => luggage_core p.1 := by
  induction tagged generalizing rets with
  | nil => simp [reassemble]
  | cons p rest ih =>
    obtain ⟨l, tag⟩ := p
    cases tag
    · rw [List.filter_cons_of_pos (by simp)] at hc
      cases rets with
      | nil => simp at hc
      | cons r rets' =>
        simp only [List.map_cons, List.cons.injEq] at hc
        show (r :: reassemble rest rets').map luggage_core = _
        rw [List.map_cons, List.map_cons, hc.1, ih rets' hc.2]
    · rw [List.filter_cons_of_neg (by simp)] at hc
      show (l :: reassemble rest rets).map luggage_core = _
      rw [List.map_cons, List.map_cons, ih rets hc]

/-- General carry-on capacity lemma: for every valid class the
carry-on evaluator leaves at most `quantity + 1` items compliant for
the cabin, each with `compliance=True`; when the compliant count
exceeds the allowed count, the checked-candidate list is extended with
exactly `count - (quantity + 1)` overflow items taken from the tail of
the weight-descending stable sort, each marked `excess=True,
compliance=False`, and every kept item outweighs every moved item —
i.e. the code evicts the lightest items, not the heaviest. -/
theorem carry_on_capacity_invariant (self : LuggageCompliance) (tc : String)
    (cls : ClassPolicy) (hcls : dict_lookup tc self.classes = some cls)
    (cos pers : List Luggage) (out : CarryOnOutcome)
    (h : validate_carry_on self tc cos pers = Except.ok out) :
    out.compliant_items.length ≤ cls.carry_on.quantity + 1 ∧
    (∀ x ∈ out.compliant_items, x.compliance = true) ∧
    (cls.carry_on.quantity + 1 < (classify_items cls.carry_on (cos ++ pers)).1.length →
      out.checked_candidates
          = (classify_items cls.carry_on (cos ++ pers)).2 ++
            ((sort_le weight_ge (classify_items cls.carry_on (cos ++ pers)).1).drop
                (cls.carry_on.quantity + 1)).map
              (fun i => { i with excess := true, compliance := false }) ∧
      (out.checked_candidates.drop (classify_items cls.carry_on (cos ++ pers)).2.length).length
          = (classify_items cls.carry_on (cos ++ pers)).1.length
              - (cls.carry_on.quantity + 1) ∧
      (∀ y ∈ out.checked_candidates.drop
          (classify_items cls.carry_on (cos ++ pers)).2.length,
        y.excess = true ∧ y.compliance = false) ∧
      (∀ x ∈ out.compliant_items,
        ∀ y ∈ out.checked_candidates.drop
            (classify_items cls.carry_on (cos ++ pers)).2.length,
          y.weight ≤ x.weight)) := by
  have hout : out = carry_eval cls cos pers := by
    simp only [validate_carry_on, hcls, Except.ok.injEq] at h
    exact h.symm
  subst hout
  simp only [carry_eval]
  by_cases hover :
      cls.carry_on.quantity + 1 < (classify_items cls.carry_on (cos ++ pers)).1.length
  · simp only [if_pos hover]
    have hperm := sort_le_perm weight_ge (classify_items cls.carry_on (cos ++ pers)).1
    have hsorted := sort_le_pairwise weight_ge weight_ge_total weight_ge_trans
      (classify_items cls.carry_on (cos ++ pers)).1
    have hdroplen :
        ((sort_le weight_ge (classify_items cls.carry_on (cos ++ pers)).1).drop
            (cls.carry_on.quantity + 1)).length
          = (classify_items cls.carry_on (cos ++ pers)).1.length
              - (cls.carry_on.quantity + 1) := by
      rw [List.length_drop, hperm.length_eq]
    have hpw2 : List.Pairwise (fun a b => weight_ge a b = true)
        ((sort_le weight_ge (classify_items cls.carry_on (cos ++ pers)).1).take
            (cls.carry_on.quantity + 1) ++
          (sort_le weight_ge (classify_items cls.carry_on (cos ++ pers)).1).drop
            (cls.carry_on.quantity + 1)) := by
      rw [List.take_append_drop]
      exact hsorted
    have hsplit := (List.pairwise_append.mp hpw2).2.2
    refine ⟨?_, ?_, fun _ => ⟨?_, ?_, ?_, ?_⟩⟩
    · rw [List.length_take]
      exact Nat.min_le_left _ _
    · intro x hx
      exact classify_items_compliant cls.carry_on (cos ++ pers) x
        (hperm.mem_iff.mp (List.mem_of_mem_take hx))
    · trivial
    · rw [List.drop_left]
      rw [List.length_map, hdroplen]
    · intro y hy
      rw [List.drop_left] at hy
      obtain ⟨z, hz, rfl⟩ := List.mem_map.mp hy
      exact ⟨rfl, rfl⟩
    · intro x hx y hy
      rw [List.drop_left] at hy
      obtain ⟨z, hz, rfl⟩ := List.mem_map.mp hy
      have := hsplit x hx z hz
      simpa [weight_ge] using this
  · simp only [if_neg hover]
    refine ⟨by omega, ?_, fun hc => absurd hc hover⟩
    exact classify_items_compliant cls.carry_on (cos ++ pers)

/-- Concrete instance of the capacity lemma: three compliant Economy
carry-on bags; at most two stay compliant. -/
theorem carry_on_capacity_invariant_witness :
    dict_lookup "Economy" luggage_compliance.classes = some economy_policy ∧
    validate_carry_on luggage_compliance "Economy" c3_bags []
        = Except.ok (carry_eval economy_policy c3_bags []) ∧
    (carry_eval economy_policy c3_bags []).compliant_items.length
        ≤ economy_policy.carry_on.quantity + 1 :=
  ⟨rfl, rfl,
    (carry_on_capacity_invariant luggage_compliance "Economy" economy_policy rfl
      c3_bags [] _ rfl).1⟩

/-- C3 (code bug): the spec and the code's own comment at
`luggage_compliance.py` line 84 ("Déplacer les articles les plus
lourds") call for heaviest-first eviction of the carry-on overflow,
but `overflow = compliant_items[max_items:]` of the weight-descending
sort moves the lightest items instead: with three compliant Economy
carry-on bags of 1, 2 and 3 kg (allowed count 2), the evaluator moves
exactly the 1 kg bag to the checked candidates (marked `excess=True,
compliance=False`) and keeps the 3 kg and 2 kg bags compliant for the
cabin — the opposite of the claimed heaviest-first selection. -/
theorem carry_on_eviction_moves_lightest_bug :
    validate_carry_on luggage_compliance "Economy" c3_bags []
      = Except.ok (carry_eval economy_policy c3_bags []) ∧
    ((carry_eval economy_policy c3_bags []).checked_candidates.map fun i => i.weight)
      = [1] ∧
    ((carry_eval economy_policy c3_bags []).compliant_items.map fun i => i.weight)
      = [3, 2] ∧
    ∀ i ∈ (carry_eval economy_policy c3_bags []).checked_candidates,
      i.excess = true ∧ i.compliance = false := by
  refine ⟨rfl, by decide, by decide, by decide⟩

/-- C6: the cabin-reclaim pass reclassifies exactly
`min(capacity, number of fitting items)` items — the maximum any
admission order could achieve — decrements the capacity by that count,
and sets `storage="carry-on"`, `compliance=True`, `excess=False` on
each reclaimed item. -/
theorem reclaim_pass_greedy_optimal (self : LuggageCompliance) (tc : String)
    (cls : ClassPolicy) (hcls : dict_lookup tc self.classes = some cls)
    (items : List Luggage) (pt : String) (cap : Int) (out : CheckedOutcome)
    (s2 : LuggageCompliance)
    (h : validate_checked_baggage self tc items pt cap = Except.ok (out, s2)) :
    out.carryon_candidates.length
        = min cap.toNat (items.countP (reclaim_fits cls.carry_on)) ∧
    out.remaining_capacity = cap - (out.carryon_candidates.length : Int) ∧
    ∀ x ∈ out.carryon_candidates,
      x.storage = Storage.carry_on ∧ x.compliance = true ∧ x.excess = false := by
  have hout : out = checked_eval self cls items pt cap := by
    simp only [validate_checked_baggage, hcls, Except.ok.injEq, Prod.mk.injEq] at h
    exact h.1.symm
  subst hout
  simp only [checked_eval]
  obtain ⟨h1, h2, h3⟩ := reclaim_pass_spec cls.carry_on (sort_le weight_le items) cap
  have hcount := (sort_le_perm weight_le items).countP_eq (reclaim_fits cls.carry_on)
  refine ⟨?_, ?_, ?_⟩
  · rw [List.length_map, h1, hcount]
  · rw [List.length_map, h2]
  · intro x hx
    obtain ⟨p, hp, rfl⟩ := List.mem_map.mp hx
    have hpf := List.mem_filter.mp hp
    exact h3 p hpf.1 (by simpa using hpf.2)

/-- Witness for C6: one light Business bag, capacity 1. -/
theorem reclaim_pass_greedy_optimal_witness :
    dict_lookup "Business" luggage_compliance.classes = some business_policy ∧
    validate_checked_baggage luggage_compliance "Business"
        [mk_bag Storage.checked 5 40 30 20] "adult" 1
      = Except.ok
          (checked_eval luggage_compliance business_policy
            [mk_bag Storage.checked 5 40 30 20] "adult" 1, luggage_compliance) ∧
    (checked_eval luggage_compliance business_policy
        [mk_bag Storage.checked 5 40 30 20] "adult" 1).carryon_candidates.length
      = min (1 : Int).toNat
          ([mk_bag Storage.checked 5 40 30 20].countP
            (reclaim_fits business_policy.carry_on)) :=
  ⟨rfl, rfl,
    (reclaim_pass_greedy_optimal luggage_compliance "Business" business_policy rfl
      [mk_bag Storage.checked 5 40 30 20] "adult" 1 _ _ rfl).1⟩

/-- C9: `validate_checked_baggage` sorts the caller's checked list in
place by ascending weight: after any successful call the caller's list
object holds the same items (same weights, dimensions and unit, flags
aside) permuted into weight-ascending order. -/
theorem checked_list_sorted_in_place (self : LuggageCompliance) (tc : String)
    (cls : ClassPolicy) (hcls : dict_lookup tc self.classes = some cls)
    (items : List Luggage) (pt : String) (cap : Int) (out : CheckedOutcome)
    (s2 : LuggageCompliance)
    (h : validate_checked_baggage self tc items pt cap = Except.ok (out, s2)) :
    out.final_list.Pairwise (fun a b => a.weight ≤ b.weight) ∧
    (out.final_list.map luggage_core).Perm (items.map luggage_core) := by
  have hout : out = checked_eval self cls items pt cap := by
    simp only [validate_checked_baggage, hcls, Except.ok.injEq, Prod.mk.injEq] at h
    exact h.1.symm
  subst hout
  simp only [checked_eval]
  set sorted := sort_le weight_le items with hsorted_def
  set rp := reclaim_pass cls.carry_on sorted cap with hrp_def
  set pol := overlay_checked cls.checked (dict_lookup pt self.child_allowances) with hpol_def
  set retained0 := (rp.1.filter fun p => !p.2).map fun p => p.1 with hret0_def
  set processed := retained0.map (fee_for_item self pol) with hproc_def
  set processed2 :=
    if 0 < retained0.length - pol.allowance then
      mark_last_excess (retained0.length - pol.allowance) processed
    else processed with hproc2_def
  have hproc2_cores :
      processed2.map (fun r => luggage_core r.item)
        = processed.map fun r => luggage_core r.item := by
    rw [hproc2_def]
    split
    · exact mark_last_excess_cores _ _
    · rfl
  have hret_cores :
      (processed2.map fun r => r.item).map luggage_core
        = retained0.map luggage_core := by
    rw [List.map_map]
    rw [show ((luggage_core ∘ fun r : ItemFee => r.item)
        = fun r : ItemFee => luggage_core r.item) from rfl]
    rw [hproc2_cores, hproc_def, List.map_map]
    exact List.map_congr_left fun i _ => fee_for_item_core self pol i
  have hfinal :
      (reassemble rp.1 (processed2.map fun r => r.item)).map luggage_core
        = rp.1.map fun p => luggage_core p.1 := by
    apply reassemble_map_core
    rw [hret_cores, hret0_def]
  have hfinal2 :
      (reassemble rp.1 (processed2.map fun r => r.item)).map luggage_core
        = sorted.map luggage_core := by
    rw [hfinal, hrp_def, reclaim_pass_cores]
  constructor
  · have hsp := sort_le_pairwise weight_le weight_le_total weight_le_trans items
    have hsp2 : sorted.Pairwise fun a b => a.weight ≤ b.weight := by
      refine hsp.imp ?_
      intro a b hab
      simpa [weight_le] using hab
    have hmapped :
        ((reassemble rp.1 (processed2.map fun r => r.item)).map luggage_core).Pairwise
          (fun x y => x.1 ≤ y.1) := by
      rw [hfinal2]
      exact List.pairwise_map.mpr (hsp2.imp fun hab => hab)
    have := List.pairwise_map.mp hmapped
    exact this.imp fun hab => hab
  · rw [hfinal2]
    exact (sort_le_perm weight_le items).map luggage_core

/-- Witness for C9: two Business bags given in descending weight
order. -/
theorem checked_list_sorted_in_place_witness :
    dict_lookup "Business" luggage_compliance.classes = some business_policy ∧
    validate_checked_baggage luggage_compliance "Business"
        [mk_bag Storage.checked 20 50 40 20, mk_bag Storage.checked 5 50 40 20] "adult" 0
      = Except.ok
          (checked_eval luggage_compliance business_policy
            [mk_bag Storage.checked 20 50 40 20, mk_bag Storage.checked 5 50 40 20]
            "adult" 0, luggage_compliance) ∧
    (checked_eval luggage_compliance business_policy
        [mk_bag Storage.checked 20 50 40 20, mk_bag Storage.checked 5 50 40 20]
        "adult" 0).final_list.Pairwise (fun a b => a.weight ≤ b.weight) :=
  ⟨rfl, rfl,
    (checked_list_sorted_in_place luggage_compliance "Business" business_policy rfl
      [mk_bag Storage.checked 20 50 40 20, mk_bag Storage.checked 5 50 40 20]
      "adult" 0 _ _ rfl).1⟩

theorem mark_last_excess_marks (n : Nat) (l : List ItemFee) :
    ∀ r ∈ ((mark_last_excess n l).map fun p => p.item).drop (l.length - n),
      r.excess = true := by
  intro r hr
  unfold mark_last_excess at hr
  rw [List.map_append] at hr
  have hlen : ((l.take (l.length - n)).map fun p : ItemFee => p.item).length
      = l.length - n := by
    rw [List.length_map, List.length_take]
    omega
  have hsub := List.drop_left
    ((l.take (l.length - n)).map fun p : ItemFee => p.item)
    (((l.drop (l.length - n)).map fun p : ItemFee =>
        { p with item := { p.item with excess := true } }).map fun p : ItemFee => p.item)
  rw [hlen] at hsub
  rw [hsub] at hr
  obtain ⟨q, hq, rfl⟩ := List.mem_map.mp hr
  obtain ⟨p, _, rfl⟩ := List.mem_map.mp hq
  rfl

/-- C2 (amended): the extra-piece fee is charged iff the length of the
retained checked list — which still includes the items routed to
cargo — exceeds the age-overlaid allowance; the fee added is
150 × that excess, and the last `excess` items of the retained list in
its build order are marked `excess=True`. -/
theorem piece_fee_counts_all_retained (tc : String) (cls : ClassPolicy)
    (hcls : dict_lookup tc luggage_compliance.classes = some cls)
    (items : List Luggage) (pt : String) (cap : Int) (out : CheckedOutcome)
    (s2 : LuggageCompliance)
    (h : validate_checked_baggage luggage_compliance tc items pt cap
        = Except.ok (out, s2)) :
    out.piece_excess_count
        = out.retained_final.length
            - (overlay_checked cls.checked
                (dict_lookup pt luggage_compliance.child_allowances)).allowance ∧
    out.fees = out.item_fee_total
        + (if 0 < out.piece_excess_count then 150 * (out.piece_excess_count : ℚ) else 0) ∧
    (0 < out.piece_excess_count ↔
      (overlay_checked cls.checked
          (dict_lookup pt luggage_compliance.child_allowances)).allowance
        < out.retained_final.length) ∧
    ∀ x ∈ out.retained_final.drop (out.retained_final.length - out.piece_excess_count),
      x.excess = true := by
  have hout : out = checked_eval luggage_compliance cls items pt cap := by
    simp only [validate_checked_baggage, hcls, Except.ok.injEq, Prod.mk.injEq] at h
    exact h.1.symm
  subst hout
  simp only [checked_eval]
  set pol := overlay_checked cls.checked (dict_lookup pt luggage_compliance.child_allowances)
    with hpol
  set retained0 :=
    ((reclaim_pass cls.carry_on (sort_le weight_le items) cap).1.filter
      fun p => !p.2).map fun p => p.1 with hret0
  set processed := retained0.map (fee_for_item luggage_compliance pol) with hproc
  have hplen : processed.length = retained0.length := by
    rw [hproc, List.length_map]
  have hlen2 : ((if 0 < retained0.length - pol.allowance then
        mark_last_excess (retained0.length - pol.allowance) processed
      else processed).map fun r => r.item).length = retained0.length := by
    split
    · rw [List.length_map, mark_last_excess_length, hplen]
    · rw [List.length_map, hplen]
  refine ⟨?_, ?_, ?_, ?_⟩
  · rw [hlen2]
  · rfl
  · rw [hlen2]
    omega
  · rw [hlen2]
    split
    · rename_i hposn
      have := mark_last_excess_marks (retained0.length - pol.allowance) processed
      rw [hplen] at this
      exact this
    · rename_i hzero
      have hz : retained0.length - pol.allowance = 0 := by omega
      rw [hz, Nat.sub_zero, ← hplen, ← List.length_map processed (fun r => r.item),
        List.drop_length]
      intro x hx
      exact absurd hx (List.not_mem_nil x)

/-- Witness for the amended C2: a single compliant Business bag, no
extra-piece fee. -/
theorem piece_fee_counts_all_retained_witness :
    dict_lookup "Business" luggage_compliance.classes = some business_policy ∧
    validate_checked_baggage luggage_compliance "Business"
        [mk_bag Storage.checked 10 50 40 20] "adult" 0
      = Except.ok
          (checked_eval luggage_compliance business_policy
            [mk_bag Storage.checked 10 50 40 20] "adult" 0, luggage_compliance) ∧
    (checked_eval luggage_compliance business_policy
        [mk_bag Storage.checked 10 50 40 20] "adult" 0).fees
      = (checked_eval luggage_compliance business_policy
          [mk_bag Storage.checked 10 50 40 20] "adult" 0).item_fee_total
        + (if 0 < (checked_eval luggage_compliance business_policy
              [mk_bag Storage.checked 10 50 40 20] "adult" 0).piece_excess_count then
            150 * ((checked_eval luggage_compliance business_policy
              [mk_bag Storage.checked 10 50 40 20] "adult" 0).piece_excess_count : ℚ)
          else 0) :=
  ⟨rfl, rfl,
    (piece_fee_counts_all_retained "Business" business_policy rfl
      [mk_bag Storage.checked 10 50 40 20] "adult" 0 _ _ rfl).2.1⟩

/-- Counterexample to C2 as stated: for Business/adult with two
compliant checked bags and one cargo-routed 35 kg bag, the count of
non-cargo checked items is 2 = the allowance, and no per-item fee
applies, so the claim predicts a total fee of 0 and no excess marks;
the code counts the cargo item in the retained list (3 > 2) and
charges the 150 extra-piece fee, marking the cargo item `excess`. -/
theorem piece_fee_claim_counterexample :
    validate_checked_baggage luggage_compliance "Business" c2_items "adult" 0
      = Except.ok
          (checked_eval luggage_compliance business_policy c2_items "adult" 0,
            luggage_compliance) ∧
    (checked_eval luggage_compliance business_policy c2_items "adult" 0).cargo_items.length
      = 1 ∧
    (checked_eval luggage_compliance business_policy c2_items "adult" 0).retained_final.length
      = 3 ∧
    (overlay_checked business_policy.checked
        (dict_lookup "adult" luggage_compliance.child_allowances)).allowance = 2 ∧
    (checked_eval luggage_compliance business_policy c2_items "adult" 0).item_fee_total
      = 0 ∧
    (checked_eval luggage_compliance business_policy c2_items "adult" 0).fees = 150 ∧
    ((checked_eval luggage_compliance business_policy c2_items "adult" 0).cargo_items.map
        fun i => i.excess) = [true] ∧
    (150 : ℚ) ≠ 0 := by
  refine ⟨rfl, rfl, rfl, rfl, by decide, by decide, rfl, by norm_num⟩

/-! ### Helper lemmas for the fee-monotonicity analysis -/

theorem fee_for_item_overweight_fee (pol : CheckedPolicy) (x : Luggage)
    (h32 : x.weight ≤ 32) (h203 : x.get_total_size_cm ≤ 203)
    (hw : pol.weight_limit < x.weight) (hsl : x.get_total_size_cm ≤ pol.size_limit) :
    (fee_for_item luggage_compliance pol x).fee = 75 := by
  simp only [fee_for_item]
  rw [if_neg (by push_neg; exact ⟨h32, h203⟩)]
  rw [if_pos hw, if_neg (fun hc => absurd hc.1 (not_lt.mpr hsl))]
  norm_num [luggage_compliance]

theorem reclaim_pass_insert_unfit (co : CarryOnPolicy) (u v : List Luggage) (x : Luggage)
    (hx : reclaim_fits co x = false) (cap : Int) :
    reclaim_pass co (u ++ x :: v) cap
      = ((reclaim_pass co u cap).1 ++ (x, false) ::
          (reclaim_pass co v (reclaim_pass co u cap).2).1,
        (reclaim_pass co v (reclaim_pass co u cap).2).2) := by
  rw [reclaim_pass_append, reclaim_pass_cons, if_neg (by simp [hx])]

/-- The `fees` field of `checked_eval`, written out. -/
theorem checked_eval_fees (self : LuggageCompliance) (cls : ClassPolicy)
    (items : List Luggage) (pt : String) (cap : Int) :
    (checked_eval self cls items pt cap).fees =
      (((((reclaim_pass cls.carry_on (sort_le weight_le items) cap).1.filter
            fun p => !p.2).map fun p => p.1).map
          (fee_for_item self (overlay_checked cls.checked
            (dict_lookup pt self.child_allowances)))).map fun r => r.fee).sum +
        (if 0 < (((reclaim_pass cls.carry_on (sort_le weight_le items) cap).1.filter
              fun p => !p.2).map fun p => p.1).length -
            (overlay_checked cls.checked (dict_lookup pt self.child_allowances)).allowance
        then
          self.excess_fees.extra_piece *
            ((((((reclaim_pass cls.carry_on (sort_le weight_le items) cap).1.filter
                fun p => !p.2).map fun p => p.1).length -
              (overlay_checked cls.checked (dict_lookup pt self.child_allowances)).allowance :
                Nat)) : ℚ)
        else 0) := rfl

/-- The length of the retained list of `checked_eval`, written out. -/
theorem checked_eval_retained_length (self : LuggageCompliance) (cls : ClassPolicy)
    (items : List Luggage) (pt : String) (cap : Int) :
    (checked_eval self cls items pt cap).retained_final.length
      = (((reclaim_pass cls.carry_on (sort_le weight_le items) cap).1.filter
          fun p => !p.2).map fun p => p.1).length := by
  simp only [checked_eval]
  split
  · rw [List.length_map, mark_last_excess_length, List.length_map]
  · rw [List.length_map, List.length_map]

theorem instance_carry_le_checked (tc : String) (cls : ClassPolicy)
    (hcls : dict_lookup tc luggage_compliance.classes = some cls) :
    cls.carry_on.weight_limit ≤ cls.checked.weight_limit := by
  simp only [luggage_compliance, dict_lookup] at hcls
  split at hcls
  · obtain rfl := Option.some.inj hcls
    decide
  · split at hcls
    · obtain rfl := Option.some.inj hcls
      decide
    · split at hcls
      · obtain rfl := Option.some.inj hcls
        decide
      · exact absurd hcls (by simp [dict_lookup])

/-- The core of the C5 analysis: appending one overweight,
non-cargo, size-compliant checked item at the front of the checked
list, while the retained count stays within the overlaid allowance,
raises the checked-stage fee by exactly 75. -/
theorem checked_eval_insert_overweight (cls : ClassPolicy)
    (hco : cls.carry_on.weight_limit ≤ cls.checked.weight_limit)
    (items : List Luggage) (pt : String) (cap : Int) (x : Luggage)
    (hw : (overlay_checked cls.checked
        (dict_lookup pt luggage_compliance.child_allowances)).weight_limit < x.weight)
    (h32 : x.weight ≤ 32) (h203 : x.get_total_size_cm ≤ 203)
    (hsl : x.get_total_size_cm ≤ (overlay_checked cls.checked
        (dict_lookup pt luggage_compliance.child_allowances)).size_limit)
    (hroom : (checked_eval luggage_compliance cls items pt cap).retained_final.length
        < (overlay_checked cls.checked
            (dict_lookup pt luggage_compliance.child_allowances)).allowance) :
    (checked_eval luggage_compliance cls (x :: items) pt cap).fees
      = (checked_eval luggage_compliance cls items pt cap).fees + 75 := by
  set pol := overlay_checked cls.checked (dict_lookup pt luggage_compliance.child_allowances)
    with hpol
  have hxw : cls.carry_on.weight_limit < x.weight := by
    have h1 : cls.checked.weight_limit ≤ pol.weight_limit := by
      rw [hpol]
      cases dict_lookup pt luggage_compliance.child_allowances with
      | none => exact le_refl _
      | some cp => exact le_max_left _ _
    exact lt_of_le_of_lt (le_trans hco h1) hw
  have hxfit : reclaim_fits cls.carry_on x = false := by
    simp [reclaim_fits, not_le.mpr hxw]
  obtain ⟨u, v, hins, hsplit⟩ := ins_le_decomp weight_le x (sort_le weight_le items)
  have hsort_ext : sort_le weight_le (x :: items) = u ++ x :: v := by
    show ins_le weight_le x (sort_le weight_le items) = u ++ x :: v
    exact hins
  rw [checked_eval_fees, checked_eval_fees, hsort_ext, hsplit,
    reclaim_pass_insert_unfit cls.carry_on u v x hxfit cap,
    reclaim_pass_append cls.carry_on u v cap]
  rw [checked_eval_retained_length, hsplit,
    reclaim_pass_append cls.carry_on u v cap] at hroom
  set ru := reclaim_pass cls.carry_on u cap with hru
  set rv := reclaim_pass cls.carry_on v ru.2 with hrv
  have hfc : ((x, false) :: rv.1).filter (fun p => !p.2)
      = (x, false) :: rv.1.filter (fun p => !p.2) :=
    List.filter_cons_of_pos (by simp)
  simp only [List.filter_append, hfc, List.map_append, List.map_cons, List.sum_append,
    List.sum_cons, List.length_append, List.length_cons, List.length_map] at hroom ⊢
  rw [show overlay_checked cls.checked (dict_lookup pt luggage_compliance.child_allowances)
      = pol from hpol.symm]
  rw [if_neg (by omega), if_neg (by omega),
    fee_for_item_overweight_fee pol x h32 h203 hw hsl]
  ring

/-- C5 (amended): for every compliant request (verdict true, fee 0),
adding one more checked item that is overweight for the overlaid
checked weight limit but below the cargo thresholds and within the
class size limit increases the total fee by exactly the overweight
constant 75 — provided the enlarged retained checked count still does
not exceed the overlaid piece allowance (without that proviso the
extra-piece fee can fire too; see the counterexample). -/
theorem fee_increases_by_exactly_overweight_fee
    (req : LuggageComplianceRequest) (out : EligibilityOutcome)
    (hcore : test_eligibility_core luggage_compliance req = Except.ok out)
    (hres : out.result = true) (hfee : out.fees = 0)
    (cls : ClassPolicy)
    (hcls : dict_lookup req.travel_class luggage_compliance.classes = some cls)
    (x : Luggage) (hx : x.storage = Storage.checked)
    (hw : (overlay_checked cls.checked
        (dict_lookup req.age_category luggage_compliance.child_allowances)).weight_limit
        < x.weight)
    (h32 : x.weight ≤ 32) (h203 : x.get_total_size_cm ≤ 203)
    (hsl : x.get_total_size_cm ≤ (overlay_checked cls.checked
        (dict_lookup req.age_category luggage_compliance.child_allowances)).size_limit)
    (hroom : out.checked_outcome.retained_final.length
        < (overlay_checked cls.checked
            (dict_lookup req.age_category luggage_compliance.child_allowances)).allowance) :
    (test_eligibility luggage_compliance
        { req with luggages := x :: req.luggages }).2.2.2.2
      = out.fees + 75 := by
  have hbc : (x.storage == Storage.carry_on) = false := by rw [hx]; rfl
  have hbp : (x.storage == Storage.personal) = false := by rw [hx]; rfl
  have hbk : (x.storage == Storage.checked) = true := by rw [hx]; rfl
  have hf1 : (x :: req.luggages).filter (fun y => y.storage == Storage.carry_on)
      = req.luggages.filter fun y => y.storage == Storage.carry_on :=
    List.filter_cons_of_neg (by simp [hbc])
  have hf2 : (x :: req.luggages).filter (fun y => y.storage == Storage.personal)
      = req.luggages.filter fun y => y.storage == Storage.personal :=
    List.filter_cons_of_neg (by simp [hbp])
  have hf3 : (x :: req.luggages).filter (fun y => y.storage == Storage.checked)
      = x :: req.luggages.filter fun y => y.storage == Storage.checked :=
    List.filter_cons_of_pos (by simp [hbk])
  simp only [test_eligibility_core, validate_carry_on, validate_checked_baggage, hcls,
    Except.ok.injEq] at hcore
  subst hcore
  simp only [test_eligibility, test_eligibility_core, validate_carry_on,
    validate_checked_baggage, hcls, hf1, hf2, hf3, List.cons_append]
  dsimp only at hroom ⊢
  rw [checked_eval_insert_overweight cls
    (instance_carry_le_checked req.travel_class cls hcls) _ req.age_category _ x hw h32
    h203 hsl hroom]

/-- Witness for the amended C5: the empty compliant Economy request
plus the 25 kg item yields exactly the 75-unit overweight fee. -/
theorem fee_increases_by_exactly_overweight_fee_witness :
    test_eligibility_core luggage_compliance c5_base_request = Except.ok c5_base_out ∧
    c5_base_out.result = true ∧
    c5_base_out.fees = 0 ∧
    dict_lookup c5_base_request.travel_class luggage_compliance.classes
        = some economy_policy ∧
    c5_extra_item.storage = Storage.checked ∧
    (overlay_checked economy_policy.checked
        (dict_lookup c5_base_request.age_category
          luggage_compliance.child_allowances)).weight_limit < c5_extra_item.weight ∧
    c5_extra_item.weight ≤ 32 ∧
    c5_extra_item.get_total_size_cm ≤ 203 ∧
    c5_extra_item.get_total_size_cm
        ≤ (overlay_checked economy_policy.checked
            (dict_lookup c5_base_request.age_category
              luggage_compliance.child_allowances)).size_limit ∧
    c5_base_out.checked_outcome.retained_final.length
        < (overlay_checked economy_policy.checked
            (dict_lookup c5_base_request.age_category
              luggage_compliance.child_allowances)).allowance ∧
    (test_eligibility luggage_compliance
        { c5_base_request with luggages := c5_extra_item :: c5_base_request.luggages
          }).2.2.2.2
      = c5_base_out.fees + 75 :=
  ⟨rfl, by decide, by decide, rfl, rfl, by decide, by decide, by decide, by decide,
    by decide,
    fee_increases_by_exactly_overweight_fee c5_base_request c5_base_out rfl (by decide)
      (by decide) economy_policy rfl c5_extra_item rfl (by decide) (by decide) (by decide)
      (by decide) (by decide)⟩

/-- Counterexample to C5 as stated: the base request is compliant with
fee 0, the added 25 kg item is overweight but non-cargo and within the
size limit, yet the total fee of the extended request is 225 (75
overweight + 150 extra piece), not 75. -/
theorem fee_monotonicity_counterexample :
    (test_eligibility luggage_compliance c5_cx_base).1 = true ∧
    (test_eligibility luggage_compliance c5_cx_base).2.2.2.2 = 0 ∧
    c5_extra_item.storage = Storage.checked ∧
    (overlay_checked economy_policy.checked
        (dict_lookup "adult" luggage_compliance.child_allowances)).weight_limit
      < c5_extra_item.weight ∧
    c5_extra_item.weight ≤ 32 ∧
    c5_extra_item.get_total_size_cm ≤ 203 ∧
    c5_extra_item.get_total_size_cm
      ≤ (overlay_checked economy_policy.checked
          (dict_lookup "adult" luggage_compliance.child_allowances)).size_limit ∧
    (test_eligibility luggage_compliance
        { c5_cx_base with luggages := c5_extra_item :: c5_cx_base.luggages }).2.2.2.2
      = 225 ∧
    (225 : ℚ) ≠ 0 + 75 := by
  refine ⟨by decide, by decide, rfl, by decide, by decide, by decide, by decide,
    by decide, by norm_num⟩

end LuggagePolicy
